import Mathlib

set_option maxRecDepth 100000

/-!
Shallow embedding of `src/main.py` of the image-to-text-ai repository.

The program wraps a single call to an external vision-inference service
(`vision_model.generate_content([prompt, image])`) in two functions:

* `get_gemini_vision_response(image, prompt)` (lines 32-65): makes the call
  inside a `try`, handles an empty-parts (safety-blocked) response by building
  a formatted error message from the block reason, returns the raw response
  text otherwise, and on any raised exception returns a generic retry string.
* `image_analyzer(image)` (lines 69-102): returns a fixed instructional string
  when `image is None`, otherwise converts the array to a PIL image and calls
  `get_gemini_vision_response` with a fixed hard-coded prompt.

The module-level configuration block (lines 13-25) reads `GOOGLE_API_KEY`;
when the key is absent or empty it shows a fixed error notice and exits
before the model or the analyzer is ever created.

Modelling choices:
* The external service is a parameter `svc : VisionService`; raising an
  exception is modelled as `Except.error`, a normal response as `Except.ok`.
* Both functions return `Except Fault String × Nat`; the `Except` layer makes
  exception propagation explicit (an uncaught exception would be an
  `Except.error`), and the `Nat` counts how many times the service was
  invoked during the call.
* A response carries `parts` (Python truthiness of `response.parts` is
  emptiness of the list), an optional `prompt_feedback` with an optional
  `block_reason` (Python falsiness of an absent/unspecified reason is
  `none`), and the `text` accessor value.
* Python `str.lower()` (on ASCII enum names) and `str.replace('_', ' ')`
  (single-character pattern) are embedded as character maps over the
  string's character list.
-/

/-- Block reason object of a response's prompt feedback; `name` is the enum
member name string (`.name` in line 53 of the source). -/
structure BlockReason where
  name : String
deriving DecidableEq

/-- The `prompt_feedback` object of a response; `block_reason` is `none` when
the field is absent or falsy (line 52 of the source). -/
structure PromptFeedback where
  block_reason : Option BlockReason
deriving DecidableEq

/-- The value returned by `vision_model.generate_content`: the list of content
parts, the optional prompt feedback, and the `.text` accessor value. -/
structure GenerateContentResponse where
  parts : List String
  prompt_feedback : Option PromptFeedback
  text : String
deriving DecidableEq

/-- A raised exception, carrying its message. -/
abbrev Fault := String

/-- The numpy array handed to `image_analyzer` by the UI: a
height-by-width-by-channel grid of integer samples. The empty image has no
rows. -/
structure NumpyImage where
  data : List (List (List Nat))
deriving DecidableEq

/-- The PIL image handed to the service after conversion. -/
structure PILImage where
  data : List (List (List Nat))
deriving DecidableEq

/-- Embedding of `PIL.Image.fromarray` (line 83): pure format conversion of
the pixel grid, no resizing or enhancement. -/
def Image.fromarray (a : NumpyImage) : PILImage :=
  ⟨a.data⟩

/-- The behaviour of `vision_model.generate_content([prompt, image])`: given
the prompt and the image of the multi-part request, either a raised fault or
a response. -/
abbrev VisionService := String → PILImage → Except Fault GenerateContentResponse

/-- Embedding of Python `str.lower()` for the ASCII enum-name strings it is
applied to in line 53: lowercase every character. -/
def py_str_lower (s : String) : String :=
  ⟨s.data.map Char.toLower⟩

/-- Embedding of Python `str.replace(old, new)` for the single-character
arguments used in line 53: map every occurrence of `old` to `new`. -/
def py_str_replace_char (s : String) (old new : Char) : String :=
  ⟨s.data.map fun c => if c = old then new else c⟩

/-- The generic retry string returned by the `except` handler (line 65). -/
def retry_message : String :=
  "An error occurred while communicating with the AI. Please try again."

/-- The instructional string returned for a `None` image (line 80). -/
def upload_first_message : String :=
  "Please upload an image first."

/-- First f-string fragment of the blocked-analysis message (line 55). -/
def blocked_header : String :=
  "❌ **Analysis Blocked** ❌\n\n"

/-- Second f-string fragment of the blocked-analysis message (line 56). -/
def blocked_body : String :=
  "The image could not be processed. This is likely because it was flagged for a safety reason (e.g., it may contain inappropriate content).\n\n"

/-- The full blocked-analysis error message (lines 55-57), with the computed
block reason spliced into the final fragment. -/
def error_message (block_reason : String) : String :=
  blocked_header ++ blocked_body ++ "Reason provided by the API: **" ++ block_reason ++ "**"

/-- The block-reason string computed in lines 51-53: `"unknown"` unless the
prompt feedback is present and carries a truthy block reason, in which case
the reason enum name lowercased with underscores replaced by spaces. -/
def block_reason_of (response : GenerateContentResponse) : String :=
  match response.prompt_feedback with
  | none => "unknown"
  | some pf =>
    match pf.block_reason with
    | none => "unknown"
    | some br => py_str_replace_char (py_str_lower br.name) '_' ' '

/-- Embedding of `get_gemini_vision_response(image, prompt)` (lines 32-65).
The first component is the returned value (`Except.error` would be an
uncaught exception escaping the function; the source catches everything, so
every branch is `Except.ok`). The second component counts invocations of the
external service: the body invokes `generate_content` exactly once
(line 46). -/
def get_gemini_vision_response (svc : VisionService) (image : PILImage) (prompt : String) :
    Except Fault String × Nat :=
  match svc prompt image with
  | Except.error _e => (Except.ok retry_message, 1)
  | Except.ok response =>
    if response.parts = [] then
      (Except.ok (error_message (block_reason_of response)), 1)
    else
      (Except.ok response.text, 1)

/-- The fixed hard-coded prompt built in lines 86-97, byte for byte. -/
def analysis_prompt : String :=
  "\n    You are an expert image analyst. Your task is to analyze the provided image and give a structured response with three distinct parts.\n    \n    1.  **Detailed Description:**\n        Provide a detailed, multi-sentence paragraph describing the image. Mention the main subject, the setting, colors, mood, and any important details.\n    \n    2.  **Location Identification:**\n        Analyze if the image contains a recognizable real-world landmark, city, or natural wonder. If you identify a specific place, state its name clearly. If it\x27s a generic location or unidentifiable, state \"Location is not a recognizable landmark.\"\n    \n    3.  **AI Generation Analysis:**\n        Carefully examine the image for signs of being AI-generated (e.g., unnatural textures, errors in details like hands or text, overly perfect composition). Provide your estimation as a percentage of the likelihood that this image was created by an AI. Format your answer exactly as: \"AI Generation Likelihood: [a number between 0 and 100]%\".\n    "

/-- Embedding of `image_analyzer(image)` (lines 69-102): `None` short-circuits
to the instructional string with zero service calls; any other image is
converted with `Image.fromarray` and passed to `get_gemini_vision_response`
together with the fixed prompt. -/
def image_analyzer (svc : VisionService) (image : Option NumpyImage) :
    Except Fault String × Nat :=
  match image with
  | none => (Except.ok upload_first_message, 0)
  | some img =>
    get_gemini_vision_response svc (Image.fromarray img) analysis_prompt

/-- The markdown shown by the configuration-error UI (line 23). -/
def config_error_markdown : String :=
  "# 🔴 ERROR: Missing Google API Key\nPlease create a `.env` file and add your `GOOGLE_API_KEY` to it."

/-- Outcome of the module-level configuration block (lines 13-25): either the
key was accepted and the program proceeds to build the model and the
interactive UI (`running`), or the error notice is displayed and the process
exits before the model or the analyzer exists (`configErrorNotice`). -/
inductive StartupOutcome where
  | running (api_key : String)
  | configErrorNotice (message : String)
deriving DecidableEq

/-- Embedding of the configuration block (lines 13-25): a missing
`GOOGLE_API_KEY` raises `KeyError`, an empty one raises `ValueError`
(line 15, Python falsiness of a string is emptiness); both are caught and
lead to the error notice followed by `exit()`. -/
def startup (google_api_key : Option String) : StartupOutcome :=
  match google_api_key with
  | none => StartupOutcome.configErrorNotice config_error_markdown
  | some api_key =>
    if api_key = "" then StartupOutcome.configErrorNotice config_error_markdown
    else StartupOutcome.running api_key

/-- The string `t` occurs contiguously inside the string `s`. -/
def ContainsSub (s t : String) : Prop :=
  List.IsInfix t.data s.data

/-- Boolean occurrence check: `t` occurs contiguously in the second list.
Checks the suffixes one by one. -/
def charsInf (t : List Char) : List Char → Bool
  | [] => t.isEmpty
  | b :: s => t.isPrefixOf (b :: s) || charsInf t s

/-- The boolean occurrence check decides contiguous occurrence. -/
theorem charsInf_iff (t s : List Char) : charsInf t s = true ↔ List.IsInfix t s := by
  induction s with
  | nil => simp [charsInf, List.infix_nil, List.isEmpty_iff]
  | cons b s ih =>
    simp only [charsInf, Bool.or_eq_true, List.isPrefixOf_iff_prefix, ih, List.infix_cons_iff]

instance instDecidableContainsSub (s t : String) : Decidable (ContainsSub s t) :=
  decidable_of_iff (charsInf t.data s.data = true) (charsInf_iff t.data s.data)

/-- A string built around `t` contains `t`. -/
theorem containsSub_middle (a t b : String) : ContainsSub (a ++ t ++ b) t :=
  ⟨a.data, b.data, by simp [String.data_append]⟩

/-- The blocked-analysis message contains the reason spliced into it. -/
theorem error_message_contains (r : String) : ContainsSub (error_message r) r :=
  containsSub_middle (blocked_header ++ blocked_body ++ "Reason provided by the API: **") r "**"

-- Example checks of the embedding on concrete inputs.

example : startup (some "k") = StartupOutcome.running "k" := by decide

example : py_str_replace_char (py_str_lower "OTHER_REASON") '_' ' ' = "other reason" := by decide

/-- Service used to observe claim C1: always answers normally with a fixed
text, so any service invocation is visible in the result. -/
def c1_probe_service : VisionService :=
  fun _ _ => Except.ok ⟨["part"], none, "service text"⟩

/-- The empty image: a pixel array with no rows (zero-size, but not null). -/
def empty_image : NumpyImage :=
  ⟨[]⟩

/-- Claim C1 fails as stated: for the empty (zero-size, non-null) image the
analyzer does invoke the service (call count 1, not 0) and does not return
the fixed instructional string, because line 79 only checks `image is None`. -/
theorem c1_counterexample :
    (image_analyzer c1_probe_service (some empty_image)).2 = 1 ∧
    (image_analyzer c1_probe_service (some empty_image)).1 ≠ Except.ok upload_first_message := by
  refine ⟨rfl, fun h => ?_⟩
  have h2 : (Except.ok "service text" : Except Fault String)
      = Except.ok upload_first_message := h
  injection h2 with h3
  exact absurd h3 (by decide)

/-- Claim C1 (amended): for every null image input, the analyzer returns the
fixed instructional string and makes no call to the external inference
service. -/
theorem c1_null_image_short_circuit (svc : VisionService) :
    image_analyzer svc none = (Except.ok upload_first_message, 0) :=
  rfl

/-- Claim C2: for every fault raised by the external inference call,
`get_gemini_vision_response` catches it and returns the fixed generic retry
string wrapped in `Except.ok` (so the fault is never re-raised), and the
returned value does not depend on the fault's content. -/
theorem c2_fault_caught (svc : VisionService) (image : PILImage) (prompt : String)
    (e : Fault) (h : svc prompt image = Except.error e) :
    get_gemini_vision_response svc image prompt = (Except.ok retry_message, 1) := by
  unfold get_gemini_vision_response
  rw [h]

/-- Service that always raises, used to instantiate claim C2. -/
def c2_fault_service : VisionService :=
  fun _ _ => Except.error "network down"

/-- Witness for claim C2 at a concrete raising service. -/
theorem c2_fault_caught_witness :
    get_gemini_vision_response c2_fault_service ⟨[]⟩ "p" = (Except.ok retry_message, 1) :=
  c2_fault_caught c2_fault_service ⟨[]⟩ "p" "network down" rfl

/-- Claim C3: for every service response with zero content parts, the result
is the formatted blocked-analysis message built from the computed block
reason; the message contains that reason, and the reason is `"unknown"`
whenever the prompt feedback is absent or carries no block reason. -/
theorem c3_blocked_response_message (svc : VisionService) (image : PILImage)
    (prompt : String) (r : GenerateContentResponse)
    (hcall : svc prompt image = Except.ok r) (hparts : r.parts = []) :
    get_gemini_vision_response svc image prompt
      = (Except.ok (error_message (block_reason_of r)), 1) ∧
    ContainsSub (error_message (block_reason_of r)) (block_reason_of r) ∧
    ((r.prompt_feedback = none ∨ r.prompt_feedback = some ⟨none⟩) →
      block_reason_of r = "unknown") := by
  refine ⟨?_, error_message_contains _, ?_⟩
  · unfold get_gemini_vision_response
    rw [hcall]
    simp [hparts]
  · rintro (h | h) <;> simp [block_reason_of, h]

/-- Service returning a blocked response with reason `SAFETY`, used to
instantiate claim C3. -/
def c3_safety_service : VisionService :=
  fun _ _ => Except.ok ⟨[], some ⟨some ⟨"SAFETY"⟩⟩, ""⟩

/-- Witness for claim C3: with block reason `SAFETY` the result message
contains the literal `safety`. -/
theorem c3_blocked_response_message_witness :
    get_gemini_vision_response c3_safety_service ⟨[]⟩ "p"
      = (Except.ok (error_message "safety"), 1) ∧
    ContainsSub (error_message "safety") "safety" := by
  have h := c3_blocked_response_message c3_safety_service ⟨[]⟩ "p"
    ⟨[], some ⟨some ⟨"SAFETY"⟩⟩, ""⟩ rfl rfl
  have e : block_reason_of ⟨[], some ⟨some ⟨"SAFETY"⟩⟩, ""⟩ = "safety" := by decide
  rw [e] at h
  exact ⟨h.1, h.2.1⟩

/-- Claim C4: for every service response with at least one content part, the
result is exactly the response's raw text, unmodified. -/
theorem c4_success_returns_text (svc : VisionService) (image : PILImage)
    (prompt : String) (r : GenerateContentResponse)
    (hcall : svc prompt image = Except.ok r) (hparts : r.parts ≠ []) :
    get_gemini_vision_response svc image prompt = (Except.ok r.text, 1) := by
  unfold get_gemini_vision_response
  rw [hcall]
  simp [hparts]

/-- Service answering `Hello world`, used to instantiate claim C4. -/
def c4_hello_service : VisionService :=
  fun _ _ => Except.ok ⟨["Hello world"], none, "Hello world"⟩

/-- Witness for claim C4 at the `Hello world` response. -/
theorem c4_success_returns_text_witness :
    get_gemini_vision_response c4_hello_service ⟨[]⟩ "p"
      = (Except.ok "Hello world", 1) :=
  c4_success_returns_text c4_hello_service ⟨[]⟩ "p"
    ⟨["Hello world"], none, "Hello world"⟩ rfl (by decide)

/-- Claim C5 fails as stated: the hard-coded prompt never contains the bold
format tag `**AI Generation Likelihood:**` claimed by the spec; the format it
fixes is the plain `"AI Generation Likelihood: [a number between 0 and
100]%"` (line 96). -/
theorem c5_counterexample :
    ¬ ContainsSub analysis_prompt "**AI Generation Likelihood:**" := by
  decide

/-- Service echoing its prompt back as the response text, used to observe
which prompt the analyzer sends. -/
def prompt_echo_service : VisionService :=
  fun p _ => Except.ok ⟨[p], none, p⟩

/-- Claim C5 (amended): for every non-null image the analyzer sends the one
fixed hard-coded prompt, independent of the image; that prompt requests the
three sections and fixes the likelihood format as the plain string
`"AI Generation Likelihood: [a number between 0 and 100]%"` (without the
bold markers the spec quotes). -/
theorem c5_fixed_prompt_format (svc : VisionService) (img : NumpyImage) :
    image_analyzer svc (some img)
      = get_gemini_vision_response svc (Image.fromarray img) analysis_prompt ∧
    image_analyzer prompt_echo_service (some img) = (Except.ok analysis_prompt, 1) ∧
    ContainsSub analysis_prompt "**Detailed Description:**" ∧
    ContainsSub analysis_prompt "**Location Identification:**" ∧
    ContainsSub analysis_prompt "**AI Generation Analysis:**" ∧
    ContainsSub analysis_prompt
      "Format your answer exactly as: \"AI Generation Likelihood: [a number between 0 and 100]%\"." :=
  ⟨rfl, rfl, by decide, by decide, by decide, by decide⟩

/-- Claim C6: for every input image (null or not) and every behaviour of the
external service (fault, blocked response, or normal response), the analyzer
terminates with an `Except.ok` carrying a user-facing string; no exception
escapes to the caller. -/
theorem c6_always_user_facing_string (svc : VisionService) (image : Option NumpyImage) :
    ∃ s : String, (image_analyzer svc image).1 = Except.ok s := by
  cases image with
  | none => exact ⟨upload_first_message, rfl⟩
  | some img =>
    show ∃ s, (get_gemini_vision_response svc (Image.fromarray img) analysis_prompt).1
      = Except.ok s
    unfold get_gemini_vision_response
    rcases h : svc analysis_prompt (Image.fromarray img) with e | r
    · exact ⟨retry_message, rfl⟩
    · by_cases hp : r.parts = []
      · exact ⟨error_message (block_reason_of r), by simp [hp]⟩
      · exact ⟨r.text, by simp [hp]⟩

/-- Claim C7: for every non-null image input, the analyzer invokes the
external inference call exactly once, whatever the service does. -/
theorem c7_single_service_call (svc : VisionService) (img : NumpyImage) :
    (image_analyzer svc (some img)).2 = 1 := by
  show (get_gemini_vision_response svc (Image.fromarray img) analysis_prompt).2 = 1
  unfold get_gemini_vision_response
  rcases h : svc analysis_prompt (Image.fromarray img) with e | r
  · rfl
  · by_cases hp : r.parts = [] <;> simp [hp]

/-- Claim C8: when the credential is absent or empty at startup, the
configuration block ends in the static configuration-error notice, and the
program never reaches the running state in which the model and the analyzer
exist (so no inference call can be attempted). -/
theorem c8_missing_credential_error_surface (k : Option String)
    (h : k = none ∨ k = some "") :
    startup k = StartupOutcome.configErrorNotice config_error_markdown ∧
    ∀ key, startup k ≠ StartupOutcome.running key := by
  rcases h with rfl | rfl
  · exact ⟨rfl, fun key hk => by cases hk⟩
  · refine ⟨by decide, fun key hk => ?_⟩
    rw [show startup (some "")
        = StartupOutcome.configErrorNotice config_error_markdown from by decide] at hk
    exact StartupOutcome.noConfusion hk

/-- Witness for claim C8 at the absent credential. -/
theorem c8_missing_credential_error_surface_witness :
    startup none = StartupOutcome.configErrorNotice config_error_markdown ∧
    ∀ key, startup none ≠ StartupOutcome.running key :=
  c8_missing_credential_error_surface none (Or.inl rfl)

/-- Claim C9: for every blocked response carrying a block reason, the reason
spliced into the returned message is the reason's enum name lowercased with
every underscore replaced by a space. -/
theorem c9_reason_lower_underscore_to_space (svc : VisionService) (image : PILImage)
    (prompt : String) (r : GenerateContentResponse) (pf : PromptFeedback)
    (br : BlockReason) (hcall : svc prompt image = Except.ok r)
    (hparts : r.parts = []) (hpf : r.prompt_feedback = some pf)
    (hbr : pf.block_reason = some br) :
    get_gemini_vision_response svc image prompt
      = (Except.ok (error_message (py_str_replace_char (py_str_lower br.name) '_' ' ')), 1) ∧
    (py_str_replace_char (py_str_lower br.name) '_' ' ').data
      = (br.name.data.map Char.toLower).map (fun c => if c = '_' then ' ' else c) := by
  constructor
  · unfold get_gemini_vision_response
    rw [hcall]
    simp [hparts, block_reason_of, hpf, hbr]
  · simp [py_str_replace_char, py_str_lower]

/-- Service returning a blocked response with reason `OTHER_REASON`, used to
instantiate claim C9. -/
def c9_other_reason_service : VisionService :=
  fun _ _ => Except.ok ⟨[], some ⟨some ⟨"OTHER_REASON"⟩⟩, ""⟩

/-- Witness for claim C9: the reason name `OTHER_REASON` appears in the
message as `other reason`. -/
theorem c9_reason_lower_underscore_to_space_witness :
    py_str_replace_char (py_str_lower "OTHER_REASON") '_' ' ' = "other reason" ∧
    get_gemini_vision_response c9_other_reason_service ⟨[]⟩ "p"
      = (Except.ok (error_message "other reason"), 1) := by
  have h := c9_reason_lower_underscore_to_space c9_other_reason_service ⟨[]⟩ "p"
    ⟨[], some ⟨some ⟨"OTHER_REASON"⟩⟩, ""⟩ ⟨some ⟨"OTHER_REASON"⟩⟩ ⟨"OTHER_REASON"⟩
    rfl rfl rfl rfl
  have e : py_str_replace_char (py_str_lower "OTHER_REASON") '_' ' ' = "other reason" := by
    decide
  refine ⟨e, ?_⟩
  rw [e] at h
  exact h.1

/-- Claim C10: when the external call does not raise, the blocked-analysis
message is produced exactly when the response has zero content parts, and a
response with non-empty parts yields its raw text even when its prompt
feedback carries a block reason (no hypothesis on the feedback is needed). -/
theorem c10_blocked_iff_empty_parts (svc : VisionService) (image : PILImage)
    (prompt : String) (r : GenerateContentResponse)
    (hcall : svc prompt image = Except.ok r) :
    (r.parts = [] →
      get_gemini_vision_response svc image prompt
        = (Except.ok (error_message (block_reason_of r)), 1)) ∧
    (r.parts ≠ [] →
      get_gemini_vision_response svc image prompt = (Except.ok r.text, 1)) := by
  constructor <;> intro hp <;>
    (unfold get_gemini_vision_response; rw [hcall]; simp [hp])

/-- Service whose response has a content part and also a block reason in its
prompt feedback, used to instantiate claim C10. -/
def c10_text_with_feedback_service : VisionService :=
  fun _ _ => Except.ok ⟨["t"], some ⟨some ⟨"SAFETY"⟩⟩, "still returned text"⟩

/-- Witness for claim C10: non-empty parts return the text even though the
prompt feedback carries a `SAFETY` block reason. -/
theorem c10_blocked_iff_empty_parts_witness :
    get_gemini_vision_response c10_text_with_feedback_service ⟨[]⟩ "p"
      = (Except.ok "still returned text", 1) := by
  have h := c10_blocked_iff_empty_parts c10_text_with_feedback_service ⟨[]⟩ "p"
    ⟨["t"], some ⟨some ⟨"SAFETY"⟩⟩, "still returned text"⟩ rfl
  exact h.2 (by decide)
